import Mathlib

/-!
Verification of the Anoma ledger Shell (`src/apps/src/lib/node/shell/mod.rs`)
against its natural-language specification.

The Shell itself (apply_tx, dry_run_tx, begin_block, end_block, commit,
init_chain, mempool_validate, find_balances, last_state, the `run` message
loop) is translated directly from the source file.  Its collaborators — the
write log, the block gas meter, the persistent storage engine, the
transaction-application pipeline, and the wire codecs — are not part of the
source tree; they are modelled from the specification (sections 4.1, 4.2,
4.3, 6) and each such definition is marked `Modelled from the spec:`.
-/

set_option autoImplicit false

namespace AnomaShell

/-- Storage keys: structured paths, modelled as strings (spec section 3). -/
abbrev Key := String

/-- Byte values, modelled as lists of naturals. -/
abbrev Val := List Nat

/-- Addresses (anoma_shared::types::Address), modelled as strings. -/
abbrev Address := String

/-- Modelled from the spec: `Key::validity_predicate(addr)`, the storage path
holding an account's validity-predicate code (anoma_shared, not in src/). -/
def validity_predicate_key (a : Address) : Key := "@" ++ a ++ "/?"

/-- Modelled from the spec: `token::balance_key(token, owner)`, the storage
path holding `owner`'s balance of `token` (anoma_shared, not in src/). -/
def balance_key (tok : Address) (owner : Address) : Key :=
  "@" ++ tok ++ "/balance/@" ++ owner

/-- The 14 hardcoded demo user accounts created in `Shell::new` and patched in
`Shell::begin_block` (source lines 100-118 and 419-437). -/
def users_list : List Address :=
  ["adrian", "alberto", "ash", "awa", "celso", "chris", "gabriella",
   "gianmarco", "joe", "nat", "simon", "sylvain", "tomas", "yuji"]

/-- The five hardcoded tokens of `Shell::find_balances` (source lines 503-508),
as (display name, address) pairs in source order. -/
def tokens_list : List (String × Address) :=
  [("XAN", "xan"), ("BTC", "btc"), ("ETH", "eth"), ("XTZ", "xtz"),
   ("DOGE", "doge")]

/-- Modelled from the spec: `String::from_utf8_lossy` used by the `balances`
query arm of `Shell::run` (source line 325). -/
def string_of_bytes (b : List Nat) : String :=
  String.mk (b.map fun n => Char.ofNat n)

/-- Modelled from the spec: a write-log entry is a key paired with either a
new byte value or a deletion marker (spec section 3). -/
inductive StorageModification
  | write (v : Val)
  | delete
deriving DecidableEq

/-- Insert into an association list, replacing any earlier entry for the same
key ("later entries for the same key replace earlier ones", spec 4.2). -/
def insertKV {α : Type} (l : List (Key × α)) (k : Key) (v : α) :
    List (Key × α) :=
  (k, v) :: l.filter fun p => !(p.1 == k)

/-- Modelled from the spec: the persistent storage engine's observable state
(spec section 6): chain id (write-once), the key/value ledger, the block
currently being processed, and the last committed height (0 = none).
`readErrKeys` and `commitErr` inject the I/O failures that the spec's
`read` and `commit` contracts allow (`Result`-returning operations). -/
structure PersistentStorage where
  chainId : Option String
  store : List (Key × Val)
  blockHash : Val
  blockHeight : Nat
  lastHeight : Nat
  readErrKeys : List Key
  commitErr : Bool
deriving DecidableEq

/-- Modelled from the spec: `storage.write(key, bytes)` (spec section 6). -/
def PersistentStorage.write (st : PersistentStorage) (k : Key) (v : Val) :
    PersistentStorage :=
  { st with store := insertKV st.store k v }

/-- Modelled from the spec: a storage delete (used when flushing a write-log
deletion marker at commit). -/
def PersistentStorage.deleteKey (st : PersistentStorage) (k : Key) :
    PersistentStorage :=
  { st with store := st.store.filter fun p => !(p.1 == k) }

/-- Modelled from the spec: `storage.read(key) -> Result<(Option<bytes>,
cost)>` (spec section 6); fails on keys in `readErrKeys`. -/
def PersistentStorage.read (st : PersistentStorage) (k : Key) :
    Except String (Option Val × Nat) :=
  if k ∈ st.readErrKeys then Except.error "storage read failure"
  else
    let v := (st.store.find? fun p => p.1 == k).map Prod.snd
    Except.ok (v, (v.getD []).length)

/-- Modelled from the spec: `storage.set_chain_id(id)`; the chain identifier
is set exactly once — a second call fails unless it repeats the same id
("failing or being a no-op ... must never silently change an already-set
id", spec section 4.4). -/
def PersistentStorage.set_chain_id (st : PersistentStorage) (id : String) :
    Except String PersistentStorage :=
  match st.chainId with
  | none => Except.ok { st with chainId := some id }
  | some existing =>
    if existing = id then Except.ok st
    else Except.error "chain ID already set"

/-- Modelled from the spec: `storage.begin_block(hash, height)`; storage
validates that `height` is the expected successor of its last committed
height, failing otherwise (spec section 4.4). -/
def PersistentStorage.begin_block (st : PersistentStorage) (hash : Val)
    (height : Nat) : Except String PersistentStorage :=
  if height = st.lastHeight + 1 then
    Except.ok { st with blockHash := hash, blockHeight := height }
  else Except.error "invalid block height"

/-- Modelled from the spec: `storage.commit()` persists the block being
processed; fails when `commitErr` injects a durability error. -/
def PersistentStorage.commit (st : PersistentStorage) :
    Except String PersistentStorage :=
  if st.commitErr then Except.error "commit I/O failure"
  else Except.ok { st with lastHeight := st.blockHeight }

/-- Modelled from the spec: the Merkle root is a digest over all committed
state; the tree internals are external, so the digest is modelled as the
committed contents themselves (an injective stand-in). -/
def PersistentStorage.merkle_root (st : PersistentStorage) :
    List (Key × Val) :=
  st.store

/-- Modelled from the spec: `storage.load_last_state()` returns the root and
height of the last committed block, or none on first boot. -/
def PersistentStorage.load_last_state (st : PersistentStorage) :
    Option (List (Key × Val) × Nat) :=
  if st.lastHeight = 0 then none
  else some (st.merkle_root, st.lastHeight)

/-- Modelled from the spec: the write log — a transaction-scope overlay over a
block-scope overlay over storage (spec section 4.2). -/
structure WriteLog where
  txScope : List (Key × StorageModification)
  blockScope : List (Key × StorageModification)
deriving DecidableEq

/-- The constructor `WriteLog::new`. -/
def WriteLog.new : WriteLog := ⟨[], []⟩

/-- Modelled from the spec: `write(key, value)` stages a change in the
transaction scope. -/
def WriteLog.write (wl : WriteLog) (k : Key) (v : Val) : WriteLog :=
  { wl with txScope := insertKV wl.txScope k (StorageModification.write v) }

/-- Modelled from the spec: `delete(key)` stages a deletion in the
transaction scope. -/
def WriteLog.deleteKey (wl : WriteLog) (k : Key) : WriteLog :=
  { wl with txScope := insertKV wl.txScope k StorageModification.delete }

/-- Lookup in one scope of the write log. -/
def WriteLog.readScope (l : List (Key × StorageModification)) (k : Key) :
    Option StorageModification :=
  (l.find? fun p => p.1 == k).map Prod.snd

/-- Modelled from the spec: `read(key)` looks up the transaction scope, then
the block scope (falling through to storage is the caller's job here). -/
def WriteLog.read (wl : WriteLog) (k : Key) : Option StorageModification :=
  match WriteLog.readScope wl.txScope k with
  | some m => some m
  | none => WriteLog.readScope wl.blockScope k

/-- Modelled from the spec: `commit_tx()` merges the transaction scope into
the block scope (transaction entries replace block entries for the same
key) and clears the transaction scope. -/
def WriteLog.commit_tx (wl : WriteLog) : WriteLog :=
  ⟨[], wl.txScope.foldr (fun p acc => insertKV acc p.1 p.2) wl.blockScope⟩

/-- Modelled from the spec: `drop_tx()` discards the transaction scope
without touching the block scope. -/
def WriteLog.drop_tx (wl : WriteLog) : WriteLog :=
  { wl with txScope := [] }

/-- Modelled from the spec: `commit_block(storage)` flushes every block-scope
entry into the persistent store as real writes/deletes, then clears the
block scope.  Individual storage writes are modelled as infallible, so the
`.expect` on this call in `Shell::commit` never fires in the model. -/
def WriteLog.commit_block (wl : WriteLog) (st : PersistentStorage) :
    WriteLog × PersistentStorage :=
  (⟨wl.txScope, []⟩,
   wl.blockScope.foldr
     (fun p acc =>
       match p.2 with
       | StorageModification.write v => acc.write p.1 v
       | StorageModification.delete => acc.deleteKey p.1)
     st)

/-- Modelled from the spec: the block gas meter (spec section 4.1), with a
block-level counter and a per-transaction sub-counter. -/
structure BlockGasMeter where
  block_gas : Nat
  transaction_gas : Nat
deriving DecidableEq

/-- The constructor `BlockGasMeter::default()`: both counters at zero. -/
def BlockGasMeter.default : BlockGasMeter := ⟨0, 0⟩

/-- Modelled from the spec: `reset()` zeroes the counters at block start. -/
def BlockGasMeter.reset (_m : BlockGasMeter) : BlockGasMeter :=
  BlockGasMeter.default

/-- Modelled from the spec: `get_current_transaction_gas()` returns the
counter's current value for diagnostics when a transaction aborts. -/
def BlockGasMeter.get_current_transaction_gas (m : BlockGasMeter) : Nat :=
  m.transaction_gas

/-- Modelled from the spec: `gas::as_i64`, the u64-to-i64 conversion used when
reporting gas to ABCI (overflow behaviour out of scope). -/
def as_i64 (g : Nat) : Int := Int.ofNat g

/-- Modelled from the spec: the per-account verdicts of the validity
predicates; only the rejection set is observed by the Shell. -/
structure VpsResult where
  rejected_vps : List Address
deriving DecidableEq

/-- Modelled from the spec: `protocol::TxResult` — gas consumed plus the
rejection set (spec sections 3 and 6). -/
structure TxResult where
  gas_used : Nat
  vps_result : VpsResult
deriving DecidableEq

/-- Modelled from the spec: `TxResult::is_accepted()` — accepted iff the
rejection set is empty (spec section 3 invariant). -/
def TxResult.is_accepted (r : TxResult) : Bool :=
  r.vps_result.rejected_vps.isEmpty

/-- Modelled from the spec: the human-readable rendering of a `TxResult`
returned by dry runs (spec section 6). -/
def TxResult.render (r : TxResult) : String :=
  "Transaction is " ++ (if r.is_accepted then "valid" else "invalid") ++
    ". Gas used: " ++ toString r.gas_used

/-- Errors of `protocol::apply_tx` (external), rendered as strings. -/
abbrev ProtocolError := String

/-- Modelled from the spec: the transaction-application pipeline
`protocol::apply_tx(tx_bytes, gas_meter, write_log, storage)` (spec section
4.3).  It is a pure function of its four inputs; it returns the gas meter
and write log it produced (the Rust passes them by exclusive reference) and
either a `TxResult` or an error.  It receives storage by shared reference,
so it cannot modify storage — reflected here by not returning one.  The
Shell theorems quantify over all pipelines satisfying this interface. -/
abbrev Pipeline :=
  List Nat → BlockGasMeter → WriteLog → PersistentStorage →
    BlockGasMeter × WriteLog × Except ProtocolError TxResult

/-- The Shell's error enum (source lines 26-42); payloads are rendered as
strings since the inner error types are external. -/
inductive Error
  | StorageError (msg : String)
  | AbciChannelRecvError (msg : String)
  | AbciChannelSendError (msg : String)
  | TxDecodingError (msg : String)
  | TxError (msg : String)
  | AbciQueryError (msg : String)
deriving DecidableEq

/-- The `thiserror` display strings of the Shell's error enum. -/
def Error.render : Error → String
  | Error.StorageError m => "Storage error: " ++ m
  | Error.AbciChannelRecvError m => "Shell ABCI channel receiver error: " ++ m
  | Error.AbciChannelSendError m => "Shell ABCI channel sender error: " ++ m
  | Error.TxDecodingError m =>
    "Error decoding a transaction from bytes: " ++ m
  | Error.TxError m => "Error trying to apply a transaction: " ++ m
  | Error.AbciQueryError m => "Error in the query: " ++ m

/-- Modelled from the spec: the `Tx` wire envelope (proto::types::Tx). -/
structure Tx where
  code : Val
  data : Val
deriving DecidableEq

/-- Modelled from the spec: `Tx::decode` (prost wire decoding, external).
Modelled as a length-prefixed format: a first byte `n`, then `n` code
bytes, then the rest as data; anything else fails to decode. -/
def Tx.decode (bytes : List Nat) : Except String Tx :=
  match bytes with
  | [] => Except.error "unexpected end of input"
  | n :: rest =>
    if n ≤ rest.length then Except.ok ⟨rest.take n, rest.drop n⟩
    else Except.error "buffer underflow"

/-- The two mempool transaction kinds (source lines 77-84). -/
inductive MempoolTxType
  | NewTransaction
  | RecheckTransaction
deriving DecidableEq

/-- Modelled from the spec: `Address::decode` (anoma_shared, external).
Modelled as: any non-empty string decodes to itself; the empty string
fails. -/
def Address.decode (s : String) : Except String Address :=
  if s.length = 0 then Except.error "invalid address" else Except.ok s

/-- Modelled from the spec: `Amount::try_from_slice` (borsh decoding of a
u64, external).  Bytes decode iff there are exactly 8 of them,
little-endian. -/
def Amount.try_from_slice (b : Val) : Option Nat :=
  if b.length = 8 then some (b.foldr (fun x acc => x + 256 * acc) 0)
  else none

/-- The Shell state (source lines 67-75).  The ABCI receiver is not a field
here: the message stream is passed explicitly to `Shell.run`. -/
structure Shell where
  storage : PersistentStorage
  gas_meter : BlockGasMeter
  write_log : WriteLog
deriving DecidableEq

/-- Source `Shell::init_chain` (lines 343-347): delegates to
`storage.set_chain_id`, wrapping failures in `Error::StorageError`. -/
def Shell.init_chain (s : Shell) (chain_id : String) : Except Error Shell :=
  match s.storage.set_chain_id chain_id with
  | Except.ok st => Except.ok { s with storage := st }
  | Except.error e => Except.error (Error.StorageError e)

/-- Source `Shell::mempool_validate` (lines 352-359): decode-only; the
mempool kind is ignored and no state is touched (the Rust takes `&self`,
reflected by not returning a Shell). -/
def Shell.mempool_validate (_s : Shell) (tx_bytes : List Nat)
    (_t : MempoolTxType) : Except Error Unit :=
  match Tx.decode tx_bytes with
  | Except.ok _ => Except.ok ()
  | Except.error e => Except.error (Error.TxDecodingError e)

/-- Source `Shell::apply_tx` (lines 362-399): run the pipeline; on success
commit the transaction scope when accepted and drop it when rejected; on
error leave the write log as the pipeline left it and report the gas
meter's current transaction gas. -/
def Shell.apply_tx (p : Pipeline) (s : Shell) (tx_bytes : List Nat) :
    Shell × (Int × Except Error TxResult) :=
  match p tx_bytes s.gas_meter s.write_log s.storage with
  | (gm, wl, Except.ok r) =>
    ({ s with gas_meter := gm,
              write_log := if r.is_accepted then wl.commit_tx
                           else wl.drop_tx },
     (as_i64 r.gas_used, Except.ok r))
  | (gm, wl, Except.error e) =>
    ({ s with gas_meter := gm, write_log := wl },
     (as_i64 gm.get_current_transaction_gas,
      Except.error (Error.TxError e)))

/-- Source `Shell::dry_run_tx` (lines 402-413): run the pipeline against a
default gas meter and a clone of the write log; the Shell's own fields are
untouched. -/
def Shell.dry_run_tx (p : Pipeline) (s : Shell) (tx_bytes : List Nat) :
    Shell × Except Error String :=
  match p tx_bytes BlockGasMeter.default s.write_log s.storage with
  | (_, _, Except.ok r) => (s, Except.ok r.render)
  | (_, _, Except.error e) => (s, Except.error (Error.TxError e))

/-- The height-6 emergency VP patch loop of `Shell::begin_block` (source
lines 440-445): writes the user validity predicate for each of the 14 demo
accounts directly into persistent storage. -/
def write_user_vps (st : PersistentStorage) (user_vp : Val) :
    PersistentStorage :=
  users_list.foldl
    (fun acc u => acc.write (validity_predicate_key u) user_vp) st

/-- Source `Shell::begin_block` (lines 416-450): at height 6, first apply the
emergency user-VP patch (the VP bytes come from a file, passed here as
`user_vp`); then reset the gas meter and inform storage.  The `.unwrap()`
on `storage.begin_block` is a panic, modelled as `none`. -/
def Shell.begin_block (s : Shell) (user_vp : Val) (hash : Val)
    (height : Nat) : Option Shell :=
  let st0 := if height = 6 then write_user_vps s.storage user_vp
             else s.storage
  let gm := s.gas_meter.reset
  match st0.begin_block hash height with
  | Except.ok st1 => some { s with storage := st1, gas_meter := gm }
  | Except.error _ => none

/-- Source `Shell::end_block` (line 453): a no-op. -/
def Shell.end_block (s : Shell) (_height : Nat) : Shell := s

/-- Source `Shell::commit` (lines 457-472): flush the block-scope write log
into storage, then ask storage to commit — a storage commit error is only
logged (`unwrap_or_else`), after which the Merkle root is returned
regardless. -/
def Shell.commit (s : Shell) : Shell × List (Key × Val) :=
  let flushed := s.write_log.commit_block s.storage
  let st2 := match flushed.2.commit with
             | Except.ok st => st
             | Except.error _ => flushed.2
  ({ s with storage := st2, write_log := flushed.1 }, st2.merkle_root)

/-- Source `Shell::last_state` (lines 476-498): read the last committed state
from storage (logging-only on error; the model's `load_last_state` is
total). -/
def Shell.last_state (s : Shell) : Option (List (Key × Val) × Nat) :=
  s.storage.load_last_state

/-- One iteration of the token loop of `Shell::find_balances` (source lines
511-519): on a successful read of a present, decodable balance, prepend
`"NAME: amount, "` to the accumulator; otherwise leave it unchanged. -/
def balances_step (st : PersistentStorage) (user : Address) (acc : String)
    (p : String × Address) : String :=
  match st.read (balance_key p.2 user) with
  | Except.ok (some b, _) =>
    match Amount.try_from_slice b with
    | some amount => p.1 ++ ": " ++ toString amount ++ ", " ++ acc
    | none => acc
  | _ => acc

/-- Whether the balance lookup for `tok` contributes nothing: a storage read
error, an absent key, or an undecodable amount. -/
def lookup_failed (st : PersistentStorage) (user : Address) (tok : Address) :
    Bool :=
  match st.read (balance_key tok user) with
  | Except.ok (some b, _) => (Amount.try_from_slice b).isNone
  | Except.ok (none, _) => true
  | Except.error _ => true

/-- Source `Shell::find_balances` (lines 500-521): decode the address (the
only error source), then fold the five hardcoded tokens reading persistent
storage directly. -/
def Shell.find_balances (s : Shell) (addr : String) : Except Error String :=
  match Address.decode addr with
  | Except.error e => Except.error (Error.AbciQueryError e)
  | Except.ok user =>
    Except.ok (tokens_list.foldl (balances_step s.storage user) "")

/-- The ABCI messages received by the Shell loop (shell::tendermint::AbciMsg,
reply channels omitted — replies are collected by `Shell.run`). -/
inductive AbciMsg
  | GetInfo
  | InitChain (chain_id : String)
  | MempoolValidate (tx : List Nat) (ty : MempoolTxType)
  | BeginBlock (hash : Val) (height : Nat)
  | ApplyTx (tx : List Nat)
  | EndBlock (height : Nat)
  | CommitBlock
  | AbciQuery (path : String) (data : List Nat)
deriving DecidableEq

instance exceptDecEq {ε α : Type} [DecidableEq ε] [DecidableEq α] :
    DecidableEq (Except ε α) := fun x y =>
  match x, y with
  | Except.ok a, Except.ok b =>
    if h : a = b then isTrue (by rw [h])
    else isFalse (by intro hc; cases hc; exact h rfl)
  | Except.error a, Except.error b =>
    if h : a = b then isTrue (by rw [h])
    else isFalse (by intro hc; cases hc; exact h rfl)
  | Except.ok _, Except.error _ => isFalse (by intro hc; cases hc)
  | Except.error _, Except.ok _ => isFalse (by intro hc; cases hc)

/-- The reply payloads sent back through the per-message reply channels. -/
inductive Reply
  | getInfo (r : Option (List (Key × Val) × Nat))
  | unitReply
  | mempool (r : Except String Unit)
  | applyTx (gas : Int) (r : Except String TxResult)
  | commitBlock (root : List (Key × Val))
  | query (r : Except String String)
deriving DecidableEq

/-- Outcome of handling one message: a reply to send, silence (the
unrecognized-query arm sends nothing), fatal `?`-propagation before the
send, or a panic (`unwrap`/`expect`). -/
inductive Step
  | sendReply (s : Shell) (r : Reply)
  | silent (s : Shell)
  | fatal (e : Error)
  | aborted
deriving DecidableEq

/-- One inbound event of the message loop: either a successfully received
message together with whether the reply channel will accept the reply, or
a channel receive failure. -/
inductive Event
  | recvFail
  | msg (m : AbciMsg) (sendOk : Bool)
deriving DecidableEq

/-- Terminal status of a finite run of the loop: still idle awaiting
messages, terminated with an error, or aborted by a panic. -/
inductive Outcome
  | idle (s : Shell)
  | fatal (e : Error)
  | aborted
deriving DecidableEq

/-- The per-message dispatch of `Shell::run` (source lines 249-337).
`user_vp` is the content of the user-VP file read by the height-6 patch. -/
def Shell.handle (p : Pipeline) (user_vp : Val) (s : Shell) (m : AbciMsg) :
    Step :=
  match m with
  | AbciMsg.GetInfo => Step.sendReply s (Reply.getInfo s.last_state)
  | AbciMsg.InitChain cid =>
    match s.init_chain cid with
    | Except.ok s1 => Step.sendReply s1 Reply.unitReply
    | Except.error e => Step.fatal e
  | AbciMsg.MempoolValidate tx ty =>
    Step.sendReply s
      (Reply.mempool ((s.mempool_validate tx ty).mapError Error.render))
  | AbciMsg.BeginBlock hash height =>
    match s.begin_block user_vp hash height with
    | some s1 => Step.sendReply s1 Reply.unitReply
    | none => Step.aborted
  | AbciMsg.ApplyTx tx =>
    Step.sendReply (Shell.apply_tx p s tx).1
      (Reply.applyTx (Shell.apply_tx p s tx).2.1
        ((Shell.apply_tx p s tx).2.2.mapError Error.render))
  | AbciMsg.EndBlock h => Step.sendReply (s.end_block h) Reply.unitReply
  | AbciMsg.CommitBlock =>
    Step.sendReply (Shell.commit s).1 (Reply.commitBlock (Shell.commit s).2)
  | AbciMsg.AbciQuery path data =>
    if path = "dry_run_tx" then
      Step.sendReply (Shell.dry_run_tx p s data).1
        (Reply.query ((Shell.dry_run_tx p s data).2.mapError Error.render))
    else if path = "balances" then
      Step.sendReply s
        (Reply.query
          ((s.find_balances (string_of_bytes data)).mapError Error.render))
    else Step.silent s

/-- The message loop of `Shell::run` (source lines 246-339) over a finite
event stream: a receive failure or a reply-send failure terminates the loop
with a channel error; an InitChain storage error propagates through `?`;
otherwise the reply is recorded and the loop continues. -/
def Shell.run (p : Pipeline) (user_vp : Val) :
    List Event → Shell → List Reply × Outcome
  | [], s => ([], Outcome.idle s)
  | Event.recvFail :: _, _ =>
    ([], Outcome.fatal (Error.AbciChannelRecvError "channel closed"))
  | Event.msg m sendOk :: rest, s =>
    match Shell.handle p user_vp s m with
    | Step.fatal e => ([], Outcome.fatal e)
    | Step.aborted => ([], Outcome.aborted)
    | Step.silent s1 => Shell.run p user_vp rest s1
    | Step.sendReply s1 r =>
      if sendOk then
        ((Shell.run p user_vp rest s1).1.cons r,
         (Shell.run p user_vp rest s1).2)
      else ([], Outcome.fatal (Error.AbciChannelSendError "send failed"))

/-! Concrete instances used by witnesses and counterexamples. -/

/-- An empty storage. -/
def st0 : PersistentStorage :=
  { chainId := none, store := [], blockHash := [], blockHeight := 0,
    lastHeight := 0, readErrKeys := [], commitErr := false }

/-- A Shell over empty storage, fresh gas meter, empty write log. -/
def s0 : Shell :=
  { storage := st0, gas_meter := BlockGasMeter.default,
    write_log := WriteLog.new }

/-- A pipeline that accepts every transaction with gas 7 and no writes. -/
def pAccept : Pipeline := fun _ gm wl _ => (gm, wl, Except.ok ⟨7, ⟨[]⟩⟩)

/-- A pipeline that rejects every transaction (one rejecting VP). -/
def pReject : Pipeline :=
  fun _ gm wl _ => (gm, wl, Except.ok ⟨9, ⟨["adrian"]⟩⟩)

/-- A pipeline that stages a write and then fails hard, as a
validity-predicate evaluation failure does mid-transaction. -/
def pStage : Pipeline :=
  fun _ gm wl _ =>
    (⟨gm.block_gas, gm.transaction_gas + 5⟩, wl.write "k" [1],
     Except.error "vp runtime failure")

/-- A pipeline that fails on every transaction without staging anything. -/
def pNoop : Pipeline := fun _ gm wl _ => (gm, wl, Except.error "no pipeline")

/-- Two InitChain messages with distinct chain ids, replies deliverable. -/
def evsInitTwice : List Event :=
  [Event.msg (AbciMsg.InitChain "chain-a") true,
   Event.msg (AbciMsg.InitChain "chain-b") true]

/-- A Shell whose write log carries a non-empty block scope. -/
def sDirtyBlock : Shell :=
  { storage := st0, gas_meter := ⟨3, 4⟩,
    write_log := ⟨[], [("b", StorageModification.write [9])]⟩ }

/-- A storage primed to fail its commit, holding one committed pair and with
block height 1 in flight. -/
def stCommitErr : PersistentStorage :=
  { chainId := none, store := [("a", [2])], blockHash := [5],
    blockHeight := 1, lastHeight := 0, readErrKeys := [],
    commitErr := true }

/-- A Shell over `stCommitErr` with an empty write log. -/
def sCommitErr : Shell :=
  { storage := stCommitErr, gas_meter := BlockGasMeter.default,
    write_log := WriteLog.new }

/-- A Shell whose storage last committed height 5, about to begin block 6. -/
def s5 : Shell :=
  { storage := { st0 with lastHeight := 5 }, gas_meter := ⟨1, 2⟩,
    write_log := WriteLog.new }

/-- The Shell produced by `begin_block` on `s5` at height 6 with user-VP
bytes `[3]` and block hash `[9]`. -/
def s6 : Shell :=
  { s5 with
      storage := { write_user_vps s5.storage [3] with
                     blockHash := [9], blockHeight := 6 },
      gas_meter := BlockGasMeter.default }

/-- The Shell produced by `begin_block` on `sDirtyBlock` at height 1. -/
def sDirtyAfter : Shell :=
  { sDirtyBlock with
      storage := { st0 with blockHash := [7], blockHeight := 1 },
      gas_meter := BlockGasMeter.default }

/-- The Shell produced by a first `init_chain "chain-a"` on `s0`. -/
def sInit : Shell :=
  { s0 with storage := { st0 with chainId := some "chain-a" } }

/-- A storage whose read of adrian's BTC balance key fails. -/
def stReadErr : PersistentStorage :=
  { st0 with readErrKeys := [balance_key "btc" "adrian"] }

/-! Helper lemmas shared across the development. -/

theorem isEmpty_iff_nil {α : Type} (l : List α) :
    l.isEmpty = true ↔ l = [] := by
  cases l <;> simp [List.isEmpty]

/-- Flushing the block scope into storage only changes the store: the
commit-error flag, heights and chain id are untouched. -/
theorem flush_preserves_flags (l : List (Key × StorageModification))
    (st : PersistentStorage) :
    (l.foldr
      (fun p acc =>
        match p.2 with
        | StorageModification.write v => acc.write p.1 v
        | StorageModification.delete => acc.deleteKey p.1)
      st).commitErr = st.commitErr ∧
    (l.foldr
      (fun p acc =>
        match p.2 with
        | StorageModification.write v => acc.write p.1 v
        | StorageModification.delete => acc.deleteKey p.1)
      st).lastHeight = st.lastHeight ∧
    (l.foldr
      (fun p acc =>
        match p.2 with
        | StorageModification.write v => acc.write p.1 v
        | StorageModification.delete => acc.deleteKey p.1)
      st).blockHeight = st.blockHeight := by
  induction l with
  | nil => exact ⟨rfl, rfl, rfl⟩
  | cons a t ih =>
    rcases a with ⟨k, m⟩
    cases m <;>
      simpa [PersistentStorage.write, PersistentStorage.deleteKey] using ih

/-- Lemma: `find?` commutes with a `filter` whose predicate is implied by the
search predicate. -/
theorem find?_filter_of_imp {α : Type} (l : List α) (p q : α → Bool)
    (h : ∀ x, p x = true → q x = true) :
    (l.filter q).find? p = l.find? p := by
  induction l with
  | nil => rfl
  | cons a t ih =>
    by_cases hq : q a = true
    · by_cases hp : p a = true <;>
        simp [List.filter_cons, List.find?, hq, hp, ih]
    · have hp : ¬ p a = true := fun hc => hq (h a hc)
      simp [List.filter_cons, List.find?, hq, hp, ih]

/-- Finding a key after an `insertKV`: the inserted key is found with its new
value, every other key is found as before. -/
theorem find?_insertKV {α : Type} (l : List (Key × α)) (k k' : Key) (v : α) :
    ((insertKV l k v).find? fun p => p.1 == k') =
      if k = k' then some (k, v) else l.find? fun p => p.1 == k' := by
  by_cases hk : k = k'
  · simp [insertKV, List.find?, hk]
  · have hne : ¬ ((k == k') = true) := by simpa using hk
    simp only [insertKV, List.find?, hne, if_neg hk]
    refine find?_filter_of_imp _ _ _ ?_
    intro x hx
    have hx' : x.1 = k' := by simpa using hx
    have hxk : x.1 ≠ k := by
      intro hc
      exact hk (hc ▸ hx')
    simp [hxk]

/-- Writing a batch of keys leaves the lookup of any key outside the batch
unchanged. -/
theorem find?_foldl_write_ne (keys : List Key) (v : Val)
    (st : PersistentStorage) (k : Key) (hk : k ∉ keys) :
    ((keys.foldl (fun acc kk => acc.write kk v) st).store.find?
        fun p => p.1 == k) =
      st.store.find? fun p => p.1 == k := by
  induction keys generalizing st with
  | nil => rfl
  | cons kk rest ih =>
    have hk1 : kk ≠ k := fun hc => hk (hc ▸ List.mem_cons_self kk rest)
    have hk2 : k ∉ rest := fun hc => hk (List.mem_cons_of_mem kk hc)
    calc ((rest.foldl (fun acc kk => acc.write kk v)
            (st.write kk v)).store.find? fun p => p.1 == k)
        = (st.write kk v).store.find? (fun p => p.1 == k) := ih _ hk2
      _ = st.store.find? fun p => p.1 == k := by
          simp [PersistentStorage.write, find?_insertKV, hk1]

/-- Writing the same value `v` at every key of a batch makes each key of the
batch read back as `v`. -/
theorem find?_foldl_write_mem (keys : List Key) (v : Val)
    (st : PersistentStorage) (k : Key) (hk : k ∈ keys) :
    ((keys.foldl (fun acc kk => acc.write kk v) st).store.find?
        fun p => p.1 == k) =
      some (k, v) := by
  induction keys generalizing st with
  | nil => cases hk
  | cons kk rest ih =>
    by_cases hr : k ∈ rest
    · exact ih _ hr
    · have hkk : kk = k := by
        rcases List.mem_cons.mp hk with h | h
        · exact h.symm
        · exact absurd h hr
      calc ((rest.foldl (fun acc kk => acc.write kk v)
              (st.write kk v)).store.find? fun p => p.1 == k)
          = (st.write kk v).store.find? (fun p => p.1 == k) :=
            find?_foldl_write_ne rest v _ k hr
        _ = some (k, v) := by
            simp [PersistentStorage.write, find?_insertKV, hkk]

/-- The height-6 patch only changes the store. -/
theorem write_user_vps_preserves_flags (st : PersistentStorage) (v : Val) :
    (write_user_vps st v).lastHeight = st.lastHeight ∧
    (write_user_vps st v).chainId = st.chainId ∧
    (write_user_vps st v).commitErr = st.commitErr := by
  have : ∀ (keys : List Key) (st : PersistentStorage),
      ((keys.foldl (fun acc k => acc.write k v) st).lastHeight
          = st.lastHeight) ∧
      ((keys.foldl (fun acc k => acc.write k v) st).chainId = st.chainId) ∧
      ((keys.foldl (fun acc k => acc.write k v) st).commitErr
          = st.commitErr) := by
    intro keys
    induction keys with
    | nil => exact fun st => ⟨rfl, rfl, rfl⟩
    | cons kk rest ih =>
      intro st
      simpa [PersistentStorage.write] using ih (st.write kk v)
  have hmap := this (users_list.map validity_predicate_key) st
  simpa [write_user_vps, List.foldl_map] using hmap

/-- Closed form of `Shell.begin_block`: patch at height 6, reset the meter,
and succeed exactly on the successor height of the (patched) storage. -/
theorem begin_block_eq (s : Shell) (vp hash : Val) (h : Nat) :
    Shell.begin_block s vp hash h =
      (if h = (if h = 6 then write_user_vps s.storage vp
               else s.storage).lastHeight + 1 then
        some { s with
                 storage := { (if h = 6 then write_user_vps s.storage vp
                               else s.storage) with
                                blockHash := hash, blockHeight := h },
                 gas_meter := BlockGasMeter.default }
      else none) := by
  simp only [Shell.begin_block, PersistentStorage.begin_block,
    BlockGasMeter.reset]
  by_cases hc : h = (if h = 6 then write_user_vps s.storage vp
      else s.storage).lastHeight + 1
  · rw [if_pos hc, if_pos hc]
  · rw [if_neg hc, if_neg hc]

/-! Claim theorems. -/

/-- Claim C1: for every transaction on which the pipeline succeeds,
`Shell::apply_tx` commits the transaction scope into the block scope
(`commit_tx`) exactly when the result's rejection set is empty
(`is_accepted`), drops the transaction scope (`drop_tx`) exactly when the
rejection set is non-empty, and in every case (acceptance, rejection, or
error) returns a pair of the gas used together with the result or error. -/
theorem apply_tx_commit_iff_accepted (p : Pipeline) (s : Shell)
    (tx : List Nat) :
    (∀ gm wl r,
      p tx s.gas_meter s.write_log s.storage = (gm, wl, Except.ok r) →
      Shell.apply_tx p s tx =
        ({ s with gas_meter := gm,
                  write_log := if r.is_accepted then wl.commit_tx
                               else wl.drop_tx },
         (as_i64 r.gas_used, Except.ok r))) ∧
    (∀ r : TxResult,
      r.is_accepted = true ↔ r.vps_result.rejected_vps = []) ∧
    (∀ gm wl e,
      p tx s.gas_meter s.write_log s.storage = (gm, wl, Except.error e) →
      Shell.apply_tx p s tx =
        ({ s with gas_meter := gm, write_log := wl },
         (as_i64 gm.get_current_transaction_gas,
          Except.error (Error.TxError e)))) := by
  refine ⟨?_, ?_, ?_⟩
  · intro gm wl r h
    simp [Shell.apply_tx, h]
  · intro r
    simp [TxResult.is_accepted, isEmpty_iff_nil]
  · intro gm wl e h
    simp [Shell.apply_tx, h]

/-- Witness for C1: a concrete accepting pipeline run, committing the
transaction scope. -/
theorem apply_tx_commit_iff_accepted_w :
    Shell.apply_tx pAccept s0 [] =
      ({ s0 with gas_meter := BlockGasMeter.default,
                 write_log := if (⟨7, ⟨[]⟩⟩ : TxResult).is_accepted then
                                WriteLog.new.commit_tx
                              else WriteLog.new.drop_tx },
       (as_i64 7, Except.ok ⟨7, ⟨[]⟩⟩)) :=
  (apply_tx_commit_iff_accepted pAccept s0 []).1
    BlockGasMeter.default WriteLog.new ⟨7, ⟨[]⟩⟩ rfl

/-- Claim C2 counterexample: the pipeline `pStage` stages a write to key "k"
and then fails; `Shell::apply_tx` does NOT drop the transaction scope — the
staged write is still visible in the write log afterwards, contradicting
the claim that no staged write remains visible. -/
theorem apply_tx_error_keeps_tx_scope :
    (Shell.apply_tx pStage s0 []).1.write_log.txScope =
        [("k", StorageModification.write [1])] ∧
    (Shell.apply_tx pStage s0 []).1.write_log.read "k" =
        some (StorageModification.write [1]) ∧
    (Shell.apply_tx pStage s0 []).1.write_log ≠
        (Shell.apply_tx pStage s0 []).1.write_log.drop_tx := by
  refine ⟨rfl, rfl, by decide⟩

/-- Claim C2 (amended): for every transaction on which the pipeline returns
an error, `Shell::apply_tx` leaves the write log exactly as the pipeline
left it (the transaction scope is not dropped), reports the error to the
caller wrapped as `Error::TxError`, and still returns the gas meter's
current transaction gas. -/
theorem apply_tx_error_reports_gas (p : Pipeline) (s : Shell) (tx : List Nat)
    (gm : BlockGasMeter) (wl : WriteLog) (e : ProtocolError)
    (h : p tx s.gas_meter s.write_log s.storage = (gm, wl, Except.error e)) :
    Shell.apply_tx p s tx =
      ({ s with gas_meter := gm, write_log := wl },
       (as_i64 gm.get_current_transaction_gas,
        Except.error (Error.TxError e))) := by
  simp [Shell.apply_tx, h]

/-- Witness for the amended C2: the staging-then-failing pipeline at a
concrete Shell; 5 units of transaction gas are reported with the error. -/
theorem apply_tx_error_reports_gas_w :
    Shell.apply_tx pStage s0 [] =
      ({ s0 with gas_meter := ⟨0, 5⟩, write_log := WriteLog.new.write "k" [1] },
       (as_i64 5, Except.error (Error.TxError "vp runtime failure"))) :=
  apply_tx_error_reports_gas pStage s0 [] ⟨0, 5⟩
    (WriteLog.new.write "k" [1]) "vp runtime failure" rfl

/-- Claim C3 counterexample: with a storage whose commit fails
(`stCommitErr`), `Shell::commit` still returns a Merkle root (the error is
only logged), even though the storage commit did not succeed — the last
committed height stays 0.  This contradicts "returning a Merkle root
implies the storage commit succeeded". -/
theorem commit_swallows_storage_error :
    (Shell.commit sCommitErr).2 = [("a", [2])] ∧
    PersistentStorage.commit sCommitErr.storage =
      Except.error "commit I/O failure" ∧
    (Shell.commit sCommitErr).1.storage.lastHeight = 0 := by
  refine ⟨rfl, rfl, rfl⟩

/-- Claim C3 (amended): `Shell::commit` always returns the Merkle root of the
post-flush storage and clears the block scope; a storage commit error is
swallowed (only logged), so when it occurs the root is returned anyway and
the last committed height is not advanced — the caller cannot tell the
commit failed. -/
theorem commit_always_returns_root (s : Shell) :
    (Shell.commit s).2 = (Shell.commit s).1.storage.merkle_root ∧
    (Shell.commit s).1.write_log.blockScope = [] ∧
    (s.storage.commitErr = true →
      (Shell.commit s).1.storage.lastHeight = s.storage.lastHeight) := by
  have hf := flush_preserves_flags s.write_log.blockScope s.storage
  refine ⟨?_, ?_, ?_⟩
  · simp only [Shell.commit]
  · simp only [Shell.commit, WriteLog.commit_block]
  · intro hce
    have hc2 : ((s.write_log.commit_block s.storage).2).commitErr = true := by
      simpa [WriteLog.commit_block] using hf.1.trans hce
    have herr : ((s.write_log.commit_block s.storage).2).commit =
        Except.error "commit I/O failure" := by
      simp [PersistentStorage.commit, hc2]
    simp only [Shell.commit, herr]
    simpa [WriteLog.commit_block] using hf.2.1

/-- Witness for the amended C3: the concrete failing-commit Shell; the height
is not advanced. -/
theorem commit_always_returns_root_w :
    (Shell.commit sCommitErr).1.storage.lastHeight =
      sCommitErr.storage.lastHeight :=
  (commit_always_returns_root sCommitErr).2.2 rfl

/-- Claim C4 counterexample: `begin_block` does not open a fresh block-scope
write log — on `sDirtyBlock`, whose block scope already holds an entry for
key "b", the block scope after `begin_block` still holds that entry, so it
is not empty "regardless of its prior contents". -/
theorem begin_block_block_scope_not_fresh :
    Shell.begin_block sDirtyBlock [] [7] 1 = some sDirtyAfter ∧
    ((Shell.begin_block sDirtyBlock [] [7] 1).map fun s1 =>
        s1.write_log.blockScope) =
      some [("b", StorageModification.write [9])] ∧
    [("b", StorageModification.write [9])] ≠
      ([] : List (Key × StorageModification)) := by
  refine ⟨by decide, by decide, by decide⟩

/-- Claim C4 (amended): for every hash and height on which it returns,
`Shell::begin_block` resets the gas meter to zero and informs storage that
block `(hash, height)` is starting (storage accepts exactly the successor
height); it does not touch the write log at all — in particular the block
scope is empty after `begin_block` exactly when it was empty before (it is
`commit`, not `begin_block`, that clears it). -/
theorem begin_block_frame (vp hash : Val) (h : Nat) (s s1 : Shell)
    (hb : Shell.begin_block s vp hash h = some s1) :
    s1.gas_meter = BlockGasMeter.default ∧
    s1.write_log = s.write_log ∧
    s1.storage.blockHash = hash ∧
    s1.storage.blockHeight = h ∧
    h = s.storage.lastHeight + 1 ∧
    (s1.write_log.blockScope = [] ↔ s.write_log.blockScope = []) := by
  rw [begin_block_eq] at hb
  by_cases h6 : h = 6
  · rw [if_pos h6] at hb
    split at hb
    next hc =>
      cases hb
      have hflags := write_user_vps_preserves_flags s.storage vp
      refine ⟨rfl, rfl, rfl, rfl, ?_, Iff.rfl⟩
      simpa [hflags.1] using hc
    next => cases hb
  · rw [if_neg h6] at hb
    split at hb
    next hc =>
      cases hb
      exact ⟨rfl, rfl, rfl, rfl, hc, Iff.rfl⟩
    next => cases hb

/-- Witness for the amended C4: the dirty-block-scope Shell beginning block 1;
the write log is carried over unchanged. -/
theorem begin_block_frame_w :
    sDirtyAfter.gas_meter = BlockGasMeter.default ∧
    sDirtyAfter.write_log = sDirtyBlock.write_log ∧
    sDirtyAfter.storage.blockHash = [7] ∧
    sDirtyAfter.storage.blockHeight = 1 ∧
    1 = sDirtyBlock.storage.lastHeight + 1 ∧
    (sDirtyAfter.write_log.blockScope = [] ↔
      sDirtyBlock.write_log.blockScope = []) :=
  begin_block_frame [] [7] 1 sDirtyBlock sDirtyAfter (by decide)

/-- Claim C9: `Shell::begin_block` mutates, besides the gas meter and the
storage block header, nothing at any height other than 6; at height 6 it
additionally writes the user validity predicate of each of the 14 hardcoded
demo accounts directly into persistent storage — bypassing the write log,
which is unchanged — before resetting the gas meter. -/
theorem begin_block_height6_patch (vp hash : Val) (h : Nat) (s s1 : Shell)
    (hb : Shell.begin_block s vp hash h = some s1) :
    s1.write_log = s.write_log ∧
    s1.gas_meter = BlockGasMeter.default ∧
    (h ≠ 6 →
      s1.storage = { s.storage with blockHash := hash, blockHeight := h }) ∧
    (h = 6 →
      s1.storage = { write_user_vps s.storage vp with
                       blockHash := hash, blockHeight := h } ∧
      ∀ u ∈ users_list,
        (s1.storage.store.find? fun p => p.1 == validity_predicate_key u) =
          some (validity_predicate_key u, vp)) := by
  rw [begin_block_eq] at hb
  by_cases h6 : h = 6
  · rw [if_pos h6] at hb
    split at hb
    next hc =>
      cases hb
      refine ⟨rfl, rfl, fun hcon => absurd h6 hcon, fun _ => ⟨rfl, ?_⟩⟩
      intro u hu
      have hmem : validity_predicate_key u ∈
          users_list.map validity_predicate_key :=
        List.mem_map_of_mem validity_predicate_key hu
      have hfind := find?_foldl_write_mem
        (users_list.map validity_predicate_key) vp s.storage
        (validity_predicate_key u) hmem
      simpa [write_user_vps, List.foldl_map] using hfind
    next => cases hb
  · rw [if_neg h6] at hb
    split at hb
    next hc =>
      cases hb
      exact ⟨rfl, rfl, fun _ => rfl, fun hcon => absurd hcon h6⟩
    next => cases hb

/-- Witness for C9: beginning block 6 on `s5` writes the VP bytes `[3]` for
account "adrian" straight into storage. -/
theorem begin_block_height6_patch_w :
    (s6.storage.store.find? fun p =>
        p.1 == validity_predicate_key "adrian") =
      some (validity_predicate_key "adrian", [3]) :=
  ((begin_block_height6_patch [3] [9] 6 s5 s6 (by decide)).2.2.2 rfl).2
    "adrian" (by decide)

/-- Helper: `dry_run_tx` never changes the Shell; both branches return `s`. -/
theorem dry_run_tx_fst (p : Pipeline) (s : Shell) (tx : List Nat) :
    (Shell.dry_run_tx p s tx).1 = s := by
  unfold Shell.dry_run_tx
  split <;> rfl

/-- Claim C5: `Shell::dry_run_tx` executes against a default-initialized gas
meter and a clone of the current write log, and leaves the Shell (gas
meter, write log, storage) unchanged; consequently any number of
interleaved dry runs does not change the result of a subsequent real
`apply_tx`. -/
theorem dry_run_tx_isolated (p q : Pipeline) (s : Shell) (tx tx2 : List Nat)
    (n : Nat) :
    (Shell.dry_run_tx p s tx).1 = s ∧
    (Shell.dry_run_tx p s tx).2 =
      (match (p tx BlockGasMeter.default s.write_log s.storage).2.2 with
       | Except.ok r => Except.ok r.render
       | Except.error e => Except.error (Error.TxError e)) ∧
    (fun st => (Shell.dry_run_tx p st tx).1)^[n] s = s ∧
    Shell.apply_tx q ((fun st => (Shell.dry_run_tx p st tx).1)^[n] s) tx2 =
      Shell.apply_tx q s tx2 := by
  have hiter : (fun st => (Shell.dry_run_tx p st tx).1)^[n] s = s :=
    Function.iterate_fixed (dry_run_tx_fst p s tx) n
  refine ⟨dry_run_tx_fst p s tx, ?_, hiter, by rw [hiter]⟩
  unfold Shell.dry_run_tx
  rcases hp : p tx BlockGasMeter.default s.write_log s.storage with ⟨gm, wl, r⟩
  cases r <;> rfl

/-- Claim C6: `Shell::mempool_validate` returns the same verdict for both
mempool kinds and for any Shell state, succeeds exactly when the bytes
decode as a `Tx` wire envelope, and its handling in the message loop
leaves the Shell unchanged (no write-log, storage, or gas-meter
mutation). -/
theorem mempool_validate_decode_only (s s' : Shell) (tx : List Nat)
    (t1 t2 : MempoolTxType) (p : Pipeline) (vp : Val) :
    Shell.mempool_validate s tx t1 = Shell.mempool_validate s tx t2 ∧
    Shell.mempool_validate s' tx t1 = Shell.mempool_validate s tx t1 ∧
    ((Shell.mempool_validate s tx t1 = Except.ok ()) ↔
      (∃ t : Tx, Tx.decode tx = Except.ok t)) ∧
    Shell.handle p vp s (AbciMsg.MempoolValidate tx t1) =
      Step.sendReply s
        (Reply.mempool
          ((Shell.mempool_validate s tx t1).mapError Error.render)) := by
  refine ⟨rfl, rfl, ?_, rfl⟩
  cases hd : Tx.decode tx <;> simp [Shell.mempool_validate, hd]

/-- Closed form of `Shell.init_chain`: first call sets the chain id, a
repeated call with the same id is a no-op, any other id fails. -/
theorem init_chain_eq (s : Shell) (id : String) :
    Shell.init_chain s id =
      (match s.storage.chainId with
       | none =>
         Except.ok { s with storage := { s.storage with chainId := some id } }
       | some existing =>
         if existing = id then Except.ok s
         else Except.error (Error.StorageError "chain ID already set")) := by
  unfold Shell.init_chain PersistentStorage.set_chain_id
  rcases hc : s.storage.chainId with _ | c
  · rfl
  · dsimp only
    by_cases hce : c = id
    · rw [if_pos hce, if_pos hce]
    · rw [if_neg hce, if_neg hce]

/-- A successful `init_chain` always leaves the chain id at the id it was
called with. -/
theorem init_chain_chainId (s s1 : Shell) (id : String)
    (h : Shell.init_chain s id = Except.ok s1) :
    s1.storage.chainId = some id := by
  rw [init_chain_eq] at h
  rcases hc : s.storage.chainId with _ | c
  · rw [hc] at h
    dsimp only at h
    have h2 : s1 = { s with storage := { s.storage with chainId := some id } } :=
      (Except.ok.inj h).symm
    rw [h2]
  · rw [hc] at h
    dsimp only at h
    by_cases hce : c = id
    · rw [if_pos hce] at h
      have h2 : s1 = s := (Except.ok.inj h).symm
      rw [h2, hc, hce]
    · rw [if_neg hce] at h
      cases h

/-- Claim C8: `Shell::init_chain` sets the chain identifier exactly once:
after a first successful call with `id1`, a second call either fails or
leaves the stored identifier at `id1` — it never silently replaces it. -/
theorem init_chain_set_once (s s1 : Shell) (id1 id2 : String)
    (h : Shell.init_chain s id1 = Except.ok s1) :
    s1.storage.chainId = some id1 ∧
    ∀ s2, Shell.init_chain s1 id2 = Except.ok s2 →
      s2.storage.chainId = some id1 := by
  have h1 := init_chain_chainId s s1 id1 h
  refine ⟨h1, fun s2 h2 => ?_⟩
  rw [init_chain_eq, h1] at h2
  dsimp only at h2
  by_cases hce : id1 = id2
  · rw [if_pos hce] at h2
    have h3 : s2 = s1 := (Except.ok.inj h2).symm
    rw [h3]
    exact h1
  · rw [if_neg hce] at h2
    cases h2

/-- Witness for C8: after `init_chain "chain-a"` on the fresh Shell, the
chain id is "chain-a" (and, by the theorem, a second call with "chain-b"
cannot change it). -/
theorem init_chain_set_once_w : sInit.storage.chainId = some "chain-a" :=
  (init_chain_set_once s0 sInit "chain-a" "chain-b" (by decide)).1

/-- Claim C10: `Shell::find_balances` errs exactly when the address fails to
decode; the result reads persistent storage only (the write log and gas
meter are irrelevant); and a token whose balance read fails, is absent, or
does not decode as an Amount is silently omitted — folding the token list
with that token gives the same string as folding without it. -/
theorem find_balances_characterization (s : Shell) (addr : String)
    (gm : BlockGasMeter) (wl : WriteLog) :
    ((∃ r, Shell.find_balances s addr = Except.ok r) ↔
      (∃ u, Address.decode addr = Except.ok u)) ∧
    Shell.find_balances { s with gas_meter := gm, write_log := wl } addr =
      Shell.find_balances s addr ∧
    (∀ (st : PersistentStorage) (user : Address) (acc : String)
        (l1 l2 : List (String × Address)) (name : String) (tok : Address),
      lookup_failed st user tok = true →
        (l1 ++ (name, tok) :: l2).foldl (balances_step st user) acc =
          (l1 ++ l2).foldl (balances_step st user) acc) := by
  refine ⟨?_, rfl, ?_⟩
  · cases hd : Address.decode addr <;> simp [Shell.find_balances, hd]
  · intro st user acc l1 l2 name tok hf
    have hstep : ∀ a : String, balances_step st user a (name, tok) = a := by
      intro a
      unfold lookup_failed at hf
      unfold balances_step
      rcases hr : st.read (balance_key tok user) with e | ⟨b?, c⟩
      · rfl
      · rcases b? with _ | b
        · rfl
        · dsimp only at hf ⊢
          rcases ha : Amount.try_from_slice b with _ | amt
          · rfl
          · simp [hr, ha] at hf
    rw [List.foldl_append, List.foldl_cons, hstep, ← List.foldl_append]

/-- Witness for C10: with a storage whose read of adrian's BTC balance key
fails, the BTC token is omitted — the fold with BTC equals the fold
without it. -/
theorem find_balances_characterization_w :
    ([("XAN", "xan")] ++ ("BTC", "btc") :: []).foldl
        (balances_step stReadErr "adrian") "" =
      ([("XAN", "xan")] ++ []).foldl (balances_step stReadErr "adrian") "" :=
  (find_balances_characterization s0 "adrian" BlockGasMeter.default
    WriteLog.new).2.2 stReadErr "adrian" "" [("XAN", "xan")] [] "BTC" "btc"
    (by decide)

/-- The only fatal step a message handler can produce is the `?`-propagated
storage error of the InitChain arm. -/
theorem handle_fatal_storage (p : Pipeline) (vp : Val) (s : Shell)
    (m : AbciMsg) (e : Error) (hf : Shell.handle p vp s m = Step.fatal e) :
    ∃ msg, e = Error.StorageError msg := by
  cases m with
  | GetInfo => cases hf
  | InitChain cid =>
    dsimp only [Shell.handle, Shell.init_chain] at hf
    rcases hsc : s.storage.set_chain_id cid with e' | st <;>
      rw [hsc] at hf <;> dsimp only at hf
    · cases hf
      exact ⟨e', rfl⟩
    · cases hf
  | MempoolValidate tx ty => cases hf
  | BeginBlock hash height =>
    dsimp only [Shell.handle] at hf
    rcases hbb : s.begin_block vp hash height with _ | s1 <;>
      rw [hbb] at hf <;> cases hf
  | ApplyTx tx => cases hf
  | EndBlock h => cases hf
  | CommitBlock => cases hf
  | AbciQuery path data =>
    dsimp only [Shell.handle] at hf
    split at hf
    · cases hf
    · split at hf
      · cases hf
      · cases hf

/-- Every error the message loop terminates with is a channel error or a
storage error (the latter only from InitChain). -/
theorem run_fatal_classified (p : Pipeline) (vp : Val) :
    ∀ (evs : List Event) (s : Shell) (e : Error),
      (Shell.run p vp evs s).2 = Outcome.fatal e →
      ((∃ m, e = Error.AbciChannelRecvError m) ∨
       (∃ m, e = Error.AbciChannelSendError m) ∨
       (∃ m, e = Error.StorageError m)) := by
  intro evs
  induction evs with
  | nil =>
    intro s e he
    cases he
  | cons ev rest ih =>
    intro s e he
    cases ev with
    | recvFail =>
      cases he
      exact Or.inl ⟨"channel closed", rfl⟩
    | msg m sendOk =>
      rcases hh : Shell.handle p vp s m with ⟨s1, r⟩ | s1 | e' | _
      · cases sendOk with
        | true =>
          have he2 : (Shell.run p vp rest s1).2 = Outcome.fatal e := by
            simpa [Shell.run, hh] using he
          exact ih s1 e he2
        | false =>
          have hx : Outcome.fatal (Error.AbciChannelSendError "send failed") =
              Outcome.fatal e := by
            simpa [Shell.run, hh] using he
          cases hx
          exact Or.inr (Or.inl ⟨"send failed", rfl⟩)
      · have he2 : (Shell.run p vp rest s1).2 = Outcome.fatal e := by
          simpa [Shell.run, hh] using he
        exact ih s1 e he2
      · have hx : Outcome.fatal e' = Outcome.fatal e := by
          simpa [Shell.run, hh] using he
        obtain rfl : e' = e := Outcome.fatal.inj hx
        exact Or.inr (Or.inr (handle_fatal_storage p vp s m e' hh))
      · simp [Shell.run, hh] at he

/-- Claim C7 counterexample: two InitChain messages with different chain ids
and no channel failure anywhere terminate the loop with a StorageError —
`self.init_chain(chain_id)?` propagates it — so "terminates with an error
exactly when a channel receive or reply send fails" is false. -/
theorem run_fatal_without_channel_failure :
    (Shell.run pNoop [] evsInitTwice s0).2 =
      Outcome.fatal (Error.StorageError "chain ID already set") ∧
    (evsInitTwice.all fun ev =>
      match ev with
      | Event.recvFail => false
      | Event.msg _ sendOk => sendOk) = true := by
  refine ⟨by decide, by decide⟩

/-- Claim C7 (amended): the message loop terminates with an error exactly on
a channel receive failure, a reply send failure, or an InitChain storage
error (every fatal error is of one of these kinds, and each of these
events is fatal when reached); a decode failure, pipeline error, or
storage read error while handling ApplyTx or a recognized query is
converted to a string payload, passed in the reply for that call, and the
loop proceeds to the next message. -/
theorem run_error_semantics (p : Pipeline) (vp : Val) :
    (∀ evs s e, (Shell.run p vp evs s).2 = Outcome.fatal e →
      ((∃ m, e = Error.AbciChannelRecvError m) ∨
       (∃ m, e = Error.AbciChannelSendError m) ∨
       (∃ m, e = Error.StorageError m))) ∧
    (∀ rest s, Shell.run p vp (Event.recvFail :: rest) s =
      ([], Outcome.fatal (Error.AbciChannelRecvError "channel closed"))) ∧
    (∀ m s s1 r rest, Shell.handle p vp s m = Step.sendReply s1 r →
      Shell.run p vp (Event.msg m false :: rest) s =
        ([], Outcome.fatal (Error.AbciChannelSendError "send failed"))) ∧
    (∀ tx s rest,
      Shell.run p vp (Event.msg (AbciMsg.ApplyTx tx) true :: rest) s =
        (Reply.applyTx (Shell.apply_tx p s tx).2.1
            ((Shell.apply_tx p s tx).2.2.mapError Error.render) ::
          (Shell.run p vp rest (Shell.apply_tx p s tx).1).1,
         (Shell.run p vp rest (Shell.apply_tx p s tx).1).2)) ∧
    (∀ data s rest,
      Shell.run p vp
          (Event.msg (AbciMsg.AbciQuery "dry_run_tx" data) true :: rest) s =
        (Reply.query ((Shell.dry_run_tx p s data).2.mapError Error.render) ::
          (Shell.run p vp rest s).1,
         (Shell.run p vp rest s).2)) ∧
    (∀ data s rest,
      Shell.run p vp
          (Event.msg (AbciMsg.AbciQuery "balances" data) true :: rest) s =
        (Reply.query
            ((Shell.find_balances s (string_of_bytes data)).mapError
              Error.render) ::
          (Shell.run p vp rest s).1,
         (Shell.run p vp rest s).2)) := by
  refine ⟨run_fatal_classified p vp, fun rest s => rfl, ?_, ?_, ?_, ?_⟩
  · intro m s s1 r rest hsr
    simp [Shell.run, hsr]
  · intro tx s rest
    rfl
  · intro data s rest
    simp [Shell.run, Shell.handle, dry_run_tx_fst p s data]
  · intro data s rest
    simp [Shell.run, Shell.handle]

/-- Witness for the amended C7: a GetInfo message whose reply channel fails
terminates the loop with a send error. -/
theorem run_error_semantics_w :
    Shell.run pNoop [] [Event.msg AbciMsg.GetInfo false] s0 =
      ([], Outcome.fatal (Error.AbciChannelSendError "send failed")) :=
  (run_error_semantics pNoop []).2.2.1 AbciMsg.GetInfo s0 s0
    (Reply.getInfo (Shell.last_state s0)) [] rfl

end AnomaShell
